import Mathlib

/-
Verification development for the finance-mcp server (src/server.py).

The file shallowly embeds the 26 tool functions of server.py. Conventions:

  * The process environment is reduced to the one variable the code reads:
    the FMP_API_KEY value, modelled as an Option String (none = absent).
    Python truthiness of the key (if not api_key) treats the empty string
    like an absent key.
  * Upstream HTTP traffic is modelled by an oracle
    fetch : Request -> FetchResult supplied as an argument. A Request
    records the URL and the query parameters in construction order
    (integer parameters are rendered with toString). FetchResult.success
    carries the parsed JSON body; FetchResult.failure collapses network
    errors, non-2xx statuses (raise_for_status) and body-parse errors into
    one message, exactly as the try/except blocks of the code do.
  * Every tool returns Outcome × List Request: the Outcome is either
    Outcome.ok s (the Python function returns the string s) or
    Outcome.raise e (the Python function raises an exception escaping the
    function body); the list records every request issued, in order.
  * JSON values are modelled by the inductive Json below. Numeric payload
    values are modelled as Int (no claim depends on float semantics).
  * Timestamps in the historical-price filter are modelled as Int at day
    granularity; pd.Timestamp.now() is the parameter now and
    pd.Timestamp.now().replace(month=1, day=1) is the parameter jan1.
    Calendar parsing (pd.to_datetime) and ISO rendering are abstracted as
    function parameters parseDate and isoOf.
  * pandas DataFrame reshaping is modelled on the record-list shapes the
    upstream actually returns; ragged rows (pandas would fill NaN across
    the union of keys) are approximated by requiring each record to carry
    all selected columns, and a failing reshape raises like pandas does.
-/

/-- JSON values as returned by resp.json(). Numbers are modelled as Int. -/
inductive Json where
  | null
  | bool (b : Bool)
  | num (n : Int)
  | str (s : String)
  | arr (items : List Json)
  | obj (fields : List (String × Json))
deriving Repr

/-- One outbound HTTP GET: URL plus query parameters in construction order. -/
structure Request where
  url : String
  params : List (String × String)
deriving Repr, DecidableEq

/-- Result of one tool call at the Python level: a returned string, or an
exception escaping the tool function. -/
inductive Outcome where
  | ok (s : String)
  | raise (e : String)
deriving Repr, DecidableEq

/-- Upstream oracle answer: parsed JSON body on success, or the message of
the exception raised by requests.get / raise_for_status / resp.json(). -/
inductive FetchResult where
  | success (body : Json)
  | failure (msg : String)

/-- Escape for the JSON string serializer (quote, backslash, newline). -/
def jsonEscape (s : String) : String :=
  s.foldl
    (fun acc c =>
      acc ++ (if c = '"' then "\\\"" else if c = '\\' then "\\\\"
              else if c = '\n' then "\\n" else String.singleton c))
    ""

/-- Serialized JSON string literal. -/
def jsonQuote (s : String) : String := "\"" ++ jsonEscape s ++ "\""

mutual
/-- Models json.dumps with the default separators. -/
def jsonDump : Json → String
  | .null => "null"
  | .bool true => "true"
  | .bool false => "false"
  | .num n => toString n
  | .str s => jsonQuote s
  | .arr items => "[" ++ String.intercalate ", " (jsonDumpList items) ++ "]"
  | .obj fields => "\x7b" ++ String.intercalate ", " (jsonDumpFields fields) ++ "\x7d"

def jsonDumpList : List Json → List String
  | [] => []
  | j :: rest => jsonDump j :: jsonDumpList rest

def jsonDumpFields : List (String × Json) → List String
  | [] => []
  | kv :: rest => (jsonQuote kv.1 ++ ": " ++ jsonDump kv.2) :: jsonDumpFields rest
end

/-- Models Python str() as used when a JSON value is spliced into an
f-string (containers are approximated by their JSON rendering). -/
def pyFmt : Json → String
  | .str s => s
  | .num n => toString n
  | .bool true => "True"
  | .bool false => "False"
  | .null => "None"
  | j => jsonDump j

/-- Models str.lower() on the ASCII range (the code only compares ASCII
identifiers). -/
def pyCharLower (c : Char) : Char :=
  if 'A' ≤ c ∧ c ≤ 'Z' then Char.ofNat (c.toNat + 32) else c

/-- Models str.lower(). -/
def pyLower (s : String) : String :=
  String.mk (s.data.map pyCharLower)

/-- Models iterating a Python value obtained from JSON: lists yield their
items, dicts yield their keys, strings yield their characters, everything
else raises TypeError. -/
def pyIterate : Json → Except String (List Json)
  | Json.arr xs => .ok xs
  | Json.obj fs => .ok (fs.map (fun kv => Json.str kv.1))
  | Json.str s => .ok (s.data.map (fun c => Json.str (String.singleton c)))
  | _ => .error "TypeError: object is not iterable"

/-- Python truthiness of os.environ.get applied to the key variable:
missing or empty means falsy. -/
def apiKeyMissing : Option String → Bool
  | none => true
  | some s => s == ""

/-- The key value actually used once the truthiness check passed. -/
def apiKeyValue : Option String → String
  | none => ""
  | some s => s

/-- Error string every tool returns when the credential is missing. -/
def keyErrMsg : String := "Error: FMP_API_KEY environment variable not set."

/-- Base URL of the v3 API. -/
def fmpV3 : String := "https://financialmodelingprep.com/api/v3"

/-- Base URL of the stable API. -/
def fmpStable : String := "https://financialmodelingprep.com/stable"

/-- Shared request/response skeleton: one GET inside try/except, the
normalizer applied to the parsed body outside or at the end of the try
block. onErr renders the caught exception, onOk normalizes the body. -/
def runGet (fetch : Request → FetchResult) (req : Request)
    (onErr : String → String) (onOk : Json → Outcome) : Outcome × List Request :=
  match fetch req with
  | .failure e => (.ok (onErr e), [req])
  | .success body => (onOk body, [req])

/-- Request list of runGet is always the singleton of its request. -/
theorem runGet_snd (fetch : Request → FetchResult) (req : Request)
    (onErr : String → String) (onOk : Json → Outcome) :
    (runGet fetch req onErr onOk).2 = [req] := by
  unfold runGet
  cases fetch req <;> rfl

/-- One row of the normalized historical-price table after the date column
has been converted by pd.to_datetime. The date is an Int timestamp at day
granularity; the other five selected columns keep their raw JSON payloads. -/
structure PriceRow where
  date : Int
  openv : Json
  high : Json
  low : Json
  close : Json
  volume : Json
deriving Repr

/-- The period_map dictionary of get_historical_stock_prices: supported
relative periods and their windows, as day counts. -/
def period_map (p : String) : Option Int :=
  match p with
  | "1d" => some 1
  | "5d" => some 5
  | "1mo" => some 30
  | "3mo" => some 90
  | "6mo" => some 180
  | "1y" => some 365
  | "2y" => some 730
  | "5y" => some 1825
  | "10y" => some 3650
  | _ => none

/-- The start-of-window computation of get_historical_stock_prices:
ytd starts at January 1 of the current year (jan1), a mapped period starts
at now minus its window, everything else (including max) disables the
filter. -/
def startOf (now jan1 : Int) (period : String) : Option Int :=
  if period = "ytd" then some jan1
  else if period ≠ "max" ∧ (period_map period).isSome then
    some (now - (period_map period).getD 0)
  else none

/-- The date filter of get_historical_stock_prices: applied only when a
start was computed and the frame is nonempty, it keeps the rows whose Date
is greater than or equal to the start. -/
def filterByStart (rows : List PriceRow) (start : Option Int) : List PriceRow :=
  match start with
  | none => rows
  | some s => if rows.isEmpty then rows else rows.filter (fun r => decide (s ≤ r.date))

/-- Intraday interval names routed to the historical-chart endpoint. -/
def intradayIntervals : List String :=
  ["1min", "5min", "15min", "30min", "1hour", "4hour"]

/-- Request built for the intraday branch of get_historical_stock_prices. -/
def histChartRequest (interval ticker k : String) : Request :=
  { url := fmpV3 ++ "/historical-chart/" ++ interval ++ "/" ++ ticker,
    params := [("apikey", k)] }

/-- Request built for the daily branch of get_historical_stock_prices. -/
def histFullRequest (ticker k : String) : Request :=
  { url := fmpV3 ++ "/historical-price-full/" ++ ticker,
    params := [("apikey", k)] }

/-- Error string of get_historical_stock_prices. -/
def histErr (ticker e : String) : String :=
  "Error: getting historical stock prices for " ++ ticker ++ ": " ++ e

/-- One raw record before the pandas reshape: the string date plus the
five other selected columns. -/
structure RawPriceRow where
  date : String
  openv : Json
  high : Json
  low : Json
  close : Json
  volume : Json

/-- Models the pandas steps rename/select on a record list: every record
must be an object carrying the six selected columns (date as a string);
otherwise the selection raises KeyError outside the try block. Ragged
records, which pandas would pad with NaN, are approximated by this
all-columns requirement. -/
def parseHistRows : List Json → Except String (List RawPriceRow)
  | [] => .ok []
  | (Json.obj fs) :: rest =>
    match fs.lookup "date", fs.lookup "open", fs.lookup "high",
          fs.lookup "low", fs.lookup "close", fs.lookup "volume" with
    | some (Json.str d), some o, some h, some l, some c, some v =>
      match parseHistRows rest with
      | .ok rs => .ok (⟨d, o, h, l, c, v⟩ :: rs)
      | .error m => .error m
    | _, _, _, _, _, _ => .error "KeyError: missing required column"
  | _ :: _ => .error "KeyError: missing required column"

/-- Serializes the filtered frame like df.to_json(orient=records,
date_format=iso): Date rendered through isoOf, the other columns kept. -/
def histToJson (isoOf : Int → String) (rows : List PriceRow) : String :=
  jsonDump (Json.arr (rows.map (fun r => Json.obj
    [("Date", Json.str (isoOf r.date)), ("Open", r.openv), ("High", r.high),
     ("Low", r.low), ("Close", r.close), ("Volume", r.volume)])))

/-- The pandas section of get_historical_stock_prices, lines 92 to 123 of
server.py: build the frame, rename and select columns, convert dates,
compute the window start, filter, serialize. All of it runs outside the
try block, so a reshape failure raises. -/
def histNormalize (parseDate : String → Int) (isoOf : Int → String)
    (now jan1 : Int) (period : String) (data : Json) : Outcome :=
  match data with
  | Json.arr [] => .ok (histToJson isoOf [])
  | Json.arr items =>
    match parseHistRows items with
    | .error m => .raise m
    | .ok raws =>
      let rows := raws.map
        (fun r => ({ date := parseDate r.date, openv := r.openv, high := r.high,
                     low := r.low, close := r.close, volume := r.volume } : PriceRow))
      .ok (histToJson isoOf (filterByStart rows (startOf now jan1 period)))
  | _ => .raise "ValueError: DataFrame constructor expected records"

/-- Embedding of get_historical_stock_prices (server.py lines 68 to 123). -/
def get_historical_stock_prices (env : Option String)
    (ticker period interval : String)
    (parseDate : String → Int) (isoOf : Int → String) (now jan1 : Int)
    (fetch : Request → FetchResult) : Outcome × List Request :=
  if apiKeyMissing env then (.ok keyErrMsg, [])
  else
    let k := apiKeyValue env
    if interval ∈ intradayIntervals then
      let req := histChartRequest interval ticker k
      match fetch req with
      | .failure e => (.ok (histErr ticker e), [req])
      | .success data => (histNormalize parseDate isoOf now jan1 period data, [req])
    else
      let req := histFullRequest ticker k
      match fetch req with
      | .failure e => (.ok (histErr ticker e), [req])
      | .success body =>
        match body with
        | Json.obj fs =>
          (histNormalize parseDate isoOf now jan1 period
            ((fs.lookup "historical").getD (Json.arr [])), [req])
        | _ => (.ok (histErr ticker "AttributeError: object has no attribute get"), [req])

/-- Embedding of get_stock_info (server.py lines 135 to 148). -/
def get_stock_info (env : Option String) (ticker : String)
    (fetch : Request → FetchResult) : Outcome × List Request :=
  if apiKeyMissing env then (.ok keyErrMsg, [])
  else
    runGet fetch
      { url := fmpV3 ++ "/profile/" ++ ticker, params := [("apikey", apiKeyValue env)] }
      (fun e => "Error: getting stock information for " ++ ticker ++ ": " ++ e)
      (fun data => .ok (jsonDump (match data with
        | Json.arr (x :: _) => x
        | _ => data)))

/-- Request built by get_news_sentiment. -/
def newsRequest (ticker k : String) : Request :=
  { url := "https://financialmodelingprep.com/api/v4/general_news",
    params := [("tickers", ticker), ("page", "0"), ("size", "50"), ("apikey", k)] }

/-- Value of item.get(key, empty-string-default) spliced into the news
f-string. -/
def getFieldStr (fs : List (String × Json)) (key : String) : String :=
  match fs.lookup key with
  | some j => pyFmt j
  | none => ""

/-- The three-line block built for one news item. -/
def newsBlock (fs : List (String × Json)) : String :=
  "Title: " ++ getFieldStr fs "title" ++ "\nSummary: " ++ getFieldStr fs "text"
    ++ "\nURL: " ++ getFieldStr fs "url"

/-- The item loop of get_news_sentiment: each item must be a dict (item.get
raises AttributeError otherwise); blocks are collected in item order. -/
def newsLoop : List Json → Except String (List String)
  | [] => .ok []
  | (Json.obj fs) :: rest =>
    match newsLoop rest with
    | .ok xs => .ok (newsBlock fs :: xs)
    | .error e => .error e
  | _ :: _ => .error "AttributeError: object has no attribute get"

/-- Embedding of get_news_sentiment (server.py lines 160 to 187). The item
loop runs outside the try block, so a malformed item raises. -/
def get_news_sentiment (env : Option String) (ticker : String)
    (fetch : Request → FetchResult) : Outcome × List Request :=
  if apiKeyMissing env then (.ok keyErrMsg, [])
  else
    let req := newsRequest ticker (apiKeyValue env)
    match fetch req with
    | .failure e => (.ok ("Error: getting news for " ++ ticker ++ ": " ++ e), [req])
    | .success data =>
      match pyIterate data with
      | .error m => (.raise m, [req])
      | .ok items =>
        match newsLoop items with
        | .error m => (.raise m, [req])
        | .ok blocks =>
          if blocks.isEmpty then (.ok ("No news found for " ++ ticker), [req])
          else (.ok (String.intercalate "\n\n" blocks), [req])

/-- Dividend-history request of get_stock_actions. -/
def divRequest (ticker k : String) : Request :=
  { url := fmpV3 ++ "/historical-price-full/stock_dividend/" ++ ticker,
    params := [("apikey", k)] }

/-- Split-history request of get_stock_actions. -/
def splitRequest (ticker k : String) : Request :=
  { url := fmpV3 ++ "/historical-price-full/stock_split/" ++ ticker,
    params := [("apikey", k)] }

/-- Error string of get_stock_actions. -/
def actionsErr (ticker e : String) : String :=
  "Error: getting stock actions for " ++ ticker ++ ": " ++ e

/-- Models resp.json().get(historical-key, empty-list-default) followed by
DataFrame(...).to_dict(records) inside the try block of get_stock_actions:
a non-dict body or a non-list historical value raises inside the try and is
caught; a record list passes through. -/
def extractHistorical : Json → Except String (List Json)
  | Json.obj fs =>
    match fs.lookup "historical" with
    | some (Json.arr xs) => .ok xs
    | some _ => .error "ValueError: DataFrame constructor expected records"
    | none => .ok []
  | _ => .error "AttributeError: object has no attribute get"

/-- Embedding of get_stock_actions (server.py lines 199 to 229): two
sequential GETs inside one try block, then a merged JSON object. -/
def get_stock_actions (env : Option String) (ticker : String)
    (fetch : Request → FetchResult) : Outcome × List Request :=
  if apiKeyMissing env then (.ok keyErrMsg, [])
  else
    let k := apiKeyValue env
    let reqD := divRequest ticker k
    match fetch reqD with
    | .failure e => (.ok (actionsErr ticker e), [reqD])
    | .success bodyD =>
      match extractHistorical bodyD with
      | .error m => (.ok (actionsErr ticker m), [reqD])
      | .ok divs =>
        let reqS := splitRequest ticker k
        match fetch reqS with
        | .failure e => (.ok (actionsErr ticker e), [reqD, reqS])
        | .success bodyS =>
          match extractHistorical bodyS with
          | .error m => (.ok (actionsErr ticker m), [reqD, reqS])
          | .ok splits =>
            (.ok (jsonDump (Json.obj
              [("dividends", Json.arr divs), ("splits", Json.arr splits)])),
             [reqD, reqS])

/-- The member strings of the FinancialType enum. -/
def validFinancialTypes : List String :=
  ["income_stmt_annual", "income_stmt_quarterly", "balance_sheet_annual",
   "balance_sheet_quarterly", "cashflow_annual", "cashflow_quarterly"]

/-- The endpoint_map dictionary of get_financial_statement, keyed by the
enum member string (total on valid members, empty elsewhere). -/
def financialEndpoint (t : String) : String :=
  match t with
  | "income_stmt_annual" => "income-statement"
  | "income_stmt_quarterly" => "income-statement"
  | "balance_sheet_annual" => "balance-sheet-statement"
  | "balance_sheet_quarterly" => "balance-sheet-statement"
  | "cashflow_annual" => "cash-flow-statement"
  | "cashflow_quarterly" => "cash-flow-statement"
  | _ => ""

/-- Embedding of get_financial_statement (server.py lines 243 to 278).
The period is computed first by comparing the raw string against the three
quarterly enum members; then FinancialType(financial_type) is evaluated,
which raises ValueError for any string outside the enum, before the
invalid-type error return (which is therefore unreachable) and before any
request is built. -/
def get_financial_statement (env : Option String) (ticker financial_type : String)
    (fetch : Request → FetchResult) : Outcome × List Request :=
  if apiKeyMissing env then (.ok keyErrMsg, [])
  else
    let period :=
      if financial_type ∈
          ["income_stmt_quarterly", "balance_sheet_quarterly", "cashflow_quarterly"]
      then "quarter" else "annual"
    if financial_type ∈ validFinancialTypes then
      let endpoint := financialEndpoint financial_type
      if endpoint = "" then (.ok "Error: invalid financial type", [])
      else
        runGet fetch
          { url := fmpV3 ++ "/" ++ endpoint ++ "/" ++ ticker,
            params := [("period", period), ("apikey", apiKeyValue env)] }
          (fun e => "Error: getting financial statement for " ++ ticker ++ ": " ++ e)
          (fun data => .ok (jsonDump data))
    else
      (.raise ("ValueError: " ++ financial_type ++ " is not a valid FinancialType"), [])

/-- The endpoint_map dictionary of get_calendar_data, looked up on the
lower-cased event type. -/
def calendarEndpoint (e : String) : Option String :=
  List.lookup e
    [("dividends", "dividends"), ("dividends_calendar", "dividends-calendar"),
     ("earnings", "earnings"), ("earnings_calendar", "earnings-calendar"),
     ("ipos_calendar", "ipos-calendar"), ("ipos_disclosure", "ipos-disclosure"),
     ("ipos_prospectus", "ipos-prospectus"), ("splits", "splits"),
     ("splits_calendar", "splits-calendar")]

/-- Embedding of get_calendar_data (server.py lines 296 to 339). Note that
the endpoint lookup lower-cases event_type while the symbol-requirement
check and the page/limit attachment compare the raw event_type. -/
def get_calendar_data (env : Option String) (event_type symbol : String)
    (page limit : Int) (fetch : Request → FetchResult) : Outcome × List Request :=
  if apiKeyMissing env then (.ok keyErrMsg, [])
  else
    match calendarEndpoint (pyLower event_type) with
    | none => (.ok "Error: invalid event type", [])
    | some endpoint =>
      if event_type ∈ ["dividends", "earnings", "splits"] ∧ symbol = "" then
        (.ok "Error: symbol is required for this event type", [])
      else
        runGet fetch
          { url := fmpStable ++ "/" ++ endpoint,
            params := [("apikey", apiKeyValue env)]
              ++ (if symbol = "" then [] else [("symbol", symbol)])
              ++ (if event_type ∈ ["ipos_calendar", "ipos_disclosure", "ipos_prospectus"]
                  then [("page", toString page), ("limit", toString limit)] else []) }
          (fun e => "Error: getting calendar data " ++ event_type ++ ": " ++ e)
          (fun data => .ok (jsonDump data))

/-- Embedding of get_shares_float_info (server.py lines 356 to 392). -/
def get_shares_float_info (env : Option String) (info_type symbol : String)
    (page limit : Int) (fetch : Request → FetchResult) : Outcome × List Request :=
  if apiKeyMissing env then (.ok keyErrMsg, [])
  else
    match List.lookup (pyLower info_type)
        [("single", "shares-float"), ("all", "shares-float-all")] with
    | none => (.ok "Error: invalid info type", [])
    | some endpoint =>
      if info_type = "single" ∧ symbol = "" then
        (.ok "Error: symbol is required for single type", [])
      else
        runGet fetch
          { url := fmpStable ++ "/" ++ endpoint,
            params := [("apikey", apiKeyValue env)]
              ++ (if info_type = "single" then [("symbol", symbol)]
                  else [("page", toString page), ("limit", toString limit)]) }
          (fun e => "Error: getting shares float info " ++ info_type ++ ": " ++ e)
          (fun data => .ok (jsonDump data))

/-- Embedding of get_ma_data (server.py lines 409 to 443). -/
def get_ma_data (env : Option String) (action_type name : String)
    (page limit : Int) (fetch : Request → FetchResult) : Outcome × List Request :=
  if apiKeyMissing env then (.ok keyErrMsg, [])
  else
    match List.lookup (pyLower action_type)
        [("latest", "mergers-acquisitions-latest"),
         ("search", "mergers-acquisitions-search")] with
    | none => (.ok "Error: invalid action type", [])
    | some endpoint =>
      if action_type = "search" ∧ name = "" then
        (.ok "Error: name is required for search", [])
      else
        runGet fetch
          { url := fmpStable ++ "/" ++ endpoint,
            params := [("apikey", apiKeyValue env), ("page", toString page),
                       ("limit", toString limit)]
              ++ (if action_type = "search" then [("name", name)] else []) }
          (fun e => "Error: getting M&A data " ++ action_type ++ ": " ++ e)
          (fun data => .ok (jsonDump data))

/-- Embedding of get_executive_info (server.py lines 456 to 486). -/
def get_executive_info (env : Option String) (info_type symbol : String)
    (fetch : Request → FetchResult) : Outcome × List Request :=
  if apiKeyMissing env then (.ok keyErrMsg, [])
  else
    match List.lookup (pyLower info_type)
        [("executives", "key-executives"),
         ("compensation", "governance-executive-compensation"),
         ("benchmark", "executive-compensation-benchmark")] with
    | none => (.ok "Error: invalid info type", [])
    | some endpoint =>
      if info_type ∈ ["executives", "compensation"] ∧ symbol = "" then
        (.ok "Error: symbol is required for this info type", [])
      else
        runGet fetch
          { url := fmpStable ++ "/" ++ endpoint,
            params := [("apikey", apiKeyValue env)]
              ++ (if info_type ∈ ["executives", "compensation"]
                  then [("symbol", symbol)] else []) }
          (fun e => "Error: getting executive info " ++ info_type ++ " for "
            ++ symbol ++ ": " ++ e)
          (fun data => .ok (jsonDump data))

/-- Embedding of get_dcf_valuation (server.py lines 499 to 522). -/
def get_dcf_valuation (env : Option String) (valuation_type symbol : String)
    (fetch : Request → FetchResult) : Outcome × List Request :=
  if apiKeyMissing env then (.ok keyErrMsg, [])
  else
    match List.lookup (pyLower valuation_type)
        [("dcf", "discounted-cash-flow"),
         ("levered", "levered-discounted-cash-flow")] with
    | none => (.ok "Error: invalid valuation type", [])
    | some endpoint =>
      runGet fetch
        { url := fmpStable ++ "/" ++ endpoint,
          params := [("symbol", symbol), ("apikey", apiKeyValue env)] }
        (fun e => "Error: getting " ++ valuation_type ++ " DCF for "
          ++ symbol ++ ": " ++ e)
        (fun data => .ok (jsonDump data))

/-- Embedding of get_economic_data (server.py lines 539 to 577). -/
def get_economic_data (env : Option String) (data_type name from_date to_date : String)
    (fetch : Request → FetchResult) : Outcome × List Request :=
  if apiKeyMissing env then (.ok keyErrMsg, [])
  else
    match List.lookup (pyLower data_type)
        [("treasury_rates", "treasury-rates"),
         ("economic_indicators", "economic-indicators"),
         ("economic_calendar", "economic-calendar"),
         ("market_risk_premium", "market-risk-premium")] with
    | none => (.ok "Error: invalid data type", [])
    | some endpoint =>
      if data_type = "economic_indicators" ∧ name = "" then
        (.ok "Error: name is required for economic_indicators", [])
      else
        runGet fetch
          { url := fmpStable ++ "/" ++ endpoint,
            params := [("apikey", apiKeyValue env)]
              ++ (if data_type = "economic_indicators" then [("name", name)] else [])
              ++ (if from_date ≠ "" ∧ to_date ≠ ""
                  then [("from", from_date), ("to", to_date)] else []) }
          (fun e => "Error: getting economic data " ++ data_type ++ ": " ++ e)
          (fun data => .ok (jsonDump data))

/-- Insertion step for the model of Python sorted on strings. -/
def insertStr (x : String) : List String → List String
  | [] => [x]
  | y :: ys => if x ≤ y then x :: y :: ys else y :: insertStr x ys

/-- Model of Python sorted on a list of strings. -/
def sortStrs : List String → List String
  | [] => []
  | x :: xs => insertStr x (sortStrs xs)

/-- Insertion step for the model of Python sorted on numbers. -/
def insertInt (x : Int) : List Int → List Int
  | [] => [x]
  | y :: ys => if x ≤ y then x :: y :: ys else y :: insertInt x ys

/-- Model of Python sorted on a list of numbers. -/
def sortInts : List Int → List Int
  | [] => []
  | x :: xs => insertInt x (sortInts xs)

/-- Collects the payload strings when every item is a string. -/
def allStrings : List Json → Option (List String)
  | [] => some []
  | (Json.str s) :: rest =>
    match allStrings rest with
    | some ss => some (s :: ss)
    | none => none
  | _ :: _ => none

/-- Collects the payload numbers when every item is a number. -/
def allNums : List Json → Option (List Int)
  | [] => some []
  | (Json.num n) :: rest =>
    match allNums rest with
    | some ns => some (n :: ns)
    | none => none
  | _ :: _ => none

/-- Models json.dumps(sorted(x)) as used by get_option_expiration_dates:
sorting a homogeneous list of strings or numbers succeeds, anything else
raises TypeError (Python refuses to order mixed or unordered types). -/
def sortedPyDump (j : Json) : Except String String :=
  match pyIterate j with
  | .error m => .error m
  | .ok items =>
    match allStrings items with
    | some ss => .ok (jsonDump (Json.arr ((sortStrs ss).map Json.str)))
    | none =>
      match allNums items with
      | some ns => .ok (jsonDump (Json.arr ((sortInts ns).map Json.num)))
      | none => .error "TypeError: unorderable types"

/-- Embedding of get_option_expiration_dates (server.py lines 589 to 606).
The expirations extraction and the sort run outside the try block, so a
malformed body raises. -/
def get_option_expiration_dates (env : Option String) (ticker : String)
    (fetch : Request → FetchResult) : Outcome × List Request :=
  if apiKeyMissing env then (.ok keyErrMsg, [])
  else
    let req : Request :=
      { url := fmpV3 ++ "/options/available-expirations/" ++ ticker,
        params := [("apikey", apiKeyValue env)] }
    match fetch req with
    | .failure e =>
      (.ok ("Error: getting option expiration dates for " ++ ticker ++ ": " ++ e), [req])
    | .success data =>
      match data with
      | Json.arr xs =>
        (match sortedPyDump (Json.arr xs) with
         | .ok s => .ok s
         | .error m => .raise m, [req])
      | Json.obj fs =>
        (match sortedPyDump ((fs.lookup "expirations").getD (Json.arr [])) with
         | .ok s => .ok s
         | .error m => .raise m, [req])
      | _ => (.raise "AttributeError: object has no attribute get", [req])

/-- Request built by get_option_chain. -/
def optionChainRequest (ticker expiration_date k : String) : Request :=
  { url := fmpV3 ++ "/options/chain/" ++ ticker,
    params := [("expiration", expiration_date), ("apikey", k)] }

/-- Comparison item.get(key) == target for a string target: true exactly
when the field is present and is that string (None or a non-string value
never equals a Python string). -/
def jsonFieldEqStr (fs : List (String × Json)) (key target : String) : Bool :=
  match fs.lookup key with
  | some (Json.str s) => s == target
  | _ => false

/-- Models item.get(optionType-key, empty-default).lower(): absent field
gives the empty string, a string field is lower-cased, any other value
raises AttributeError. -/
def optionTypeLowerE (fs : List (String × Json)) : Except String String :=
  match fs.lookup "optionType" with
  | none => .ok ""
  | some (Json.str s) => .ok (pyLower s)
  | some _ => .error "AttributeError: object has no attribute lower"

/-- The list-comprehension filter of get_option_chain, with the Python
evaluation order: the expiration test short-circuits the option-type test,
and a non-dict item raises AttributeError. -/
def optionFilterLoop (expTarget typeTargetLower : String) :
    List Json → Except String (List Json)
  | [] => .ok []
  | (Json.obj fs) :: rest =>
    if jsonFieldEqStr fs "expirationDate" expTarget then
      match optionTypeLowerE fs with
      | .error e => .error e
      | .ok tl =>
        match optionFilterLoop expTarget typeTargetLower rest with
        | .error e => .error e
        | .ok xs => .ok (if tl == typeTargetLower then Json.obj fs :: xs else xs)
    else
      match optionFilterLoop expTarget typeTargetLower rest with
      | .error e => .error e
      | .ok xs => .ok xs
  | _ :: _ => .error "AttributeError: object has no attribute get"

/-- Embedding of get_option_chain (server.py lines 622 to 647). The filter
runs outside the try block, so a malformed body raises. -/
def get_option_chain (env : Option String)
    (ticker expiration_date option_type : String)
    (fetch : Request → FetchResult) : Outcome × List Request :=
  if apiKeyMissing env then (.ok keyErrMsg, [])
  else
    let req := optionChainRequest ticker expiration_date (apiKeyValue env)
    match fetch req with
    | .failure e => (.ok ("Error: getting option chain for " ++ ticker ++ ": " ++ e), [req])
    | .success data =>
      match pyIterate data with
      | .error m => (.raise m, [req])
      | .ok items =>
        match optionFilterLoop expiration_date (pyLower option_type) items with
        | .error m => (.raise m, [req])
        | .ok kept => (.ok (jsonDump (Json.arr kept)), [req])

/-- Embedding of search_companies (server.py lines 663 to 681). -/
def search_companies (env : Option String) (query : String) (limit : Int)
    (exchange : String) (fetch : Request → FetchResult) : Outcome × List Request :=
  if apiKeyMissing env then (.ok keyErrMsg, [])
  else
    runGet fetch
      { url := fmpV3 ++ "/search",
        params := [("query", query), ("limit", toString limit),
                   ("apikey", apiKeyValue env)]
          ++ (if exchange = "" then [] else [("exchange", exchange)]) }
      (fun e => "Error: searching companies: " ++ e)
      (fun data => .ok (jsonDump data))

/-- Embedding of get_top_gainers (server.py lines 688 to 702). -/
def get_top_gainers (env : Option String)
    (fetch : Request → FetchResult) : Outcome × List Request :=
  if apiKeyMissing env then (.ok keyErrMsg, [])
  else
    runGet fetch
      { url := fmpV3 ++ "/stock_market/gainers", params := [("apikey", apiKeyValue env)] }
      (fun e => "Error: getting top gainers: " ++ e)
      (fun data => .ok (jsonDump data))

/-- Embedding of get_top_losers (server.py lines 709 to 723). -/
def get_top_losers (env : Option String)
    (fetch : Request → FetchResult) : Outcome × List Request :=
  if apiKeyMissing env then (.ok keyErrMsg, [])
  else
    runGet fetch
      { url := fmpV3 ++ "/stock_market/losers", params := [("apikey", apiKeyValue env)] }
      (fun e => "Error: getting top losers: " ++ e)
      (fun data => .ok (jsonDump data))

/-- Embedding of get_stock_grades (server.py lines 734 to 748). -/
def get_stock_grades (env : Option String) (ticker : String)
    (fetch : Request → FetchResult) : Outcome × List Request :=
  if apiKeyMissing env then (.ok keyErrMsg, [])
  else
    runGet fetch
      { url := fmpStable ++ "/grades",
        params := [("symbol", ticker), ("apikey", apiKeyValue env)] }
      (fun e => "Error: getting stock grades for " ++ ticker ++ ": " ++ e)
      (fun data => .ok (jsonDump data))

/-- Embedding of get_stock_grades_historical (server.py lines 761 to 779). -/
def get_stock_grades_historical (env : Option String) (ticker : String) (limit : Int)
    (fetch : Request → FetchResult) : Outcome × List Request :=
  if apiKeyMissing env then (.ok keyErrMsg, [])
  else
    runGet fetch
      { url := fmpStable ++ "/grades-historical",
        params := [("symbol", ticker), ("limit", toString limit),
                   ("apikey", apiKeyValue env)] }
      (fun e => "Error: getting historical grades for " ++ ticker ++ ": " ++ e)
      (fun data => .ok (jsonDump data))

/-- Embedding of get_stock_grades_summary (server.py lines 790 to 804). -/
def get_stock_grades_summary (env : Option String) (ticker : String)
    (fetch : Request → FetchResult) : Outcome × List Request :=
  if apiKeyMissing env then (.ok keyErrMsg, [])
  else
    runGet fetch
      { url := fmpStable ++ "/grades-consensus",
        params := [("symbol", ticker), ("apikey", apiKeyValue env)] }
      (fun e => "Error: getting grades summary for " ++ ticker ++ ": " ++ e)
      (fun data => .ok (jsonDump data))

/-- Embedding of get_stock_grade_news (server.py lines 819 to 842). -/
def get_stock_grade_news (env : Option String) (ticker : String) (page limit : Int)
    (fetch : Request → FetchResult) : Outcome × List Request :=
  if apiKeyMissing env then (.ok keyErrMsg, [])
  else
    runGet fetch
      { url := fmpStable ++ "/grades-news",
        params := [("symbol", ticker), ("page", toString page),
                   ("limit", toString limit), ("apikey", apiKeyValue env)] }
      (fun e => "Error: getting grade news for " ++ ticker ++ ": " ++ e)
      (fun data => .ok (jsonDump data))

/-- Embedding of get_stock_grade_latest_news (server.py lines 855 to 873). -/
def get_stock_grade_latest_news (env : Option String) (page limit : Int)
    (fetch : Request → FetchResult) : Outcome × List Request :=
  if apiKeyMissing env then (.ok keyErrMsg, [])
  else
    runGet fetch
      { url := fmpStable ++ "/grades-latest-news",
        params := [("page", toString page), ("limit", toString limit),
                   ("apikey", apiKeyValue env)] }
      (fun e => "Error: getting latest grade news: " ++ e)
      (fun data => .ok (jsonDump data))

/-- Embedding of lookup_identifier (server.py lines 886 to 914). -/
def lookup_identifier (env : Option String) (identifier_type query : String)
    (fetch : Request → FetchResult) : Outcome × List Request :=
  if apiKeyMissing env then (.ok keyErrMsg, [])
  else
    match List.lookup (pyLower identifier_type)
        [("symbol", ("search-symbol", "query")),
         ("name", ("search-name", "query")),
         ("cik", ("search-cik", "cik")),
         ("cusip", ("search-cusip", "cusip")),
         ("isin", ("search-isin", "isin")),
         ("exchange_variant", ("search-exchange-variants", "symbol"))] with
    | none => (.ok "Error: invalid identifier type", [])
    | some ep =>
      runGet fetch
        { url := fmpStable ++ "/" ++ ep.1,
          params := [(ep.2, query), ("apikey", apiKeyValue env)] }
        (fun e => "Error: lookup failed for " ++ query ++ ": " ++ e)
        (fun data => .ok (jsonDump data))

/-- Embedding of get_directory_list (server.py lines 927 to 958). -/
def get_directory_list (env : Option String) (list_type : String)
    (fetch : Request → FetchResult) : Outcome × List Request :=
  if apiKeyMissing env then (.ok keyErrMsg, [])
  else
    match List.lookup (pyLower list_type)
        [("stock", "stock-list"),
         ("financial_statement_symbol", "financial-statement-symbol-list"),
         ("cik", "cik-list"),
         ("symbol_change", "symbol-change"),
         ("etf", "etf-list"),
         ("actively_trading", "actively-trading-list"),
         ("earnings_transcript", "earnings-transcript-list"),
         ("available_exchanges", "available-exchanges"),
         ("available_sectors", "available-sectors"),
         ("available_industries", "available-industries"),
         ("available_countries", "available-countries")] with
    | none => (.ok "Error: invalid list type", [])
    | some endpoint =>
      runGet fetch
        { url := fmpStable ++ "/" ++ endpoint, params := [("apikey", apiKeyValue env)] }
        (fun e => "Error: getting directory list for " ++ list_type ++ ": " ++ e)
        (fun data => .ok (jsonDump data))

/-- Embedding of get_analyst_estimates (server.py lines 975 to 1001). -/
def get_analyst_estimates (env : Option String) (symbol period : String)
    (page limit : Int) (fetch : Request → FetchResult) : Outcome × List Request :=
  if apiKeyMissing env then (.ok keyErrMsg, [])
  else
    runGet fetch
      { url := fmpStable ++ "/analyst-estimates",
        params := [("symbol", symbol), ("period", period), ("page", toString page),
                   ("limit", toString limit), ("apikey", apiKeyValue env)] }
      (fun e => "Error: getting analyst estimates for " ++ symbol ++ ": " ++ e)
      (fun data => .ok (jsonDump data))

/-- Embedding of get_ratings (server.py lines 1016 to 1042). -/
def get_ratings (env : Option String) (symbol rating_type : String) (limit : Int)
    (fetch : Request → FetchResult) : Outcome × List Request :=
  if apiKeyMissing env then (.ok keyErrMsg, [])
  else
    match List.lookup (pyLower rating_type)
        [("snapshot", "ratings-snapshot"), ("historical", "ratings-historical")] with
    | none => (.ok "Error: invalid rating type", [])
    | some endpoint =>
      runGet fetch
        { url := fmpStable ++ "/" ++ endpoint,
          params := [("symbol", symbol), ("limit", toString limit),
                     ("apikey", apiKeyValue env)] }
        (fun e => "Error: getting " ++ rating_type ++ " ratings for "
          ++ symbol ++ ": " ++ e)
        (fun data => .ok (jsonDump data))

/-- Embedding of get_price_target_info (server.py lines 1059 to 1097). -/
def get_price_target_info (env : Option String) (info_type symbol : String)
    (page limit : Int) (fetch : Request → FetchResult) : Outcome × List Request :=
  if apiKeyMissing env then (.ok keyErrMsg, [])
  else
    match List.lookup (pyLower info_type)
        [("summary", "price-target-summary"),
         ("consensus", "price-target-consensus"),
         ("news", "price-target-news"),
         ("latest_news", "price-target-latest-news")] with
    | none => (.ok "Error: invalid info type", [])
    | some endpoint =>
      if info_type ∈ ["summary", "consensus", "news"] ∧ symbol = "" then
        (.ok "Error: symbol is required for this info type", [])
      else
        runGet fetch
          { url := fmpStable ++ "/" ++ endpoint,
            params := [("apikey", apiKeyValue env)]
              ++ (if info_type ∈ ["summary", "consensus", "news"]
                  then [("symbol", symbol)] else [])
              ++ (if info_type ∈ ["news", "latest_news"]
                  then [("page", toString page), ("limit", toString limit)] else []) }
          (fun e => "Error: getting price target info " ++ info_type ++ " for "
            ++ symbol ++ ": " ++ e)
          (fun data => .ok (jsonDump data))

/-- C1: the claim says every tool operation always returns a single string
and never raises. This theorem evaluates the code at the failing input:
get_financial_statement with a sub-type string outside the FinancialType
enum raises ValueError (from the FinancialType constructor on line 267 of
server.py) instead of returning an error-prefixed string; its own
invalid-financial-type error return on line 269 is unreachable. -/
theorem financial_statement_invalid_type_raises :
    ∀ fetch : Request → FetchResult,
      get_financial_statement (some "key") "AAPL" "wrong_type" fetch
        = (Outcome.raise "ValueError: wrong_type is not a valid FinancialType", []) := by
  intro fetch
  rfl

/-- C2: the claim says every sub-type-gated operation rejects an unmapped
sub-type with an error result and no network request. The no-request half
holds everywhere, and the lower-casing map tools (here get_calendar_data
and get_ratings) do return an error string, but get_financial_statement
raises ValueError instead of producing an error result. -/
theorem unmapped_subtype_no_network :
    (∀ fetch : Request → FetchResult,
      get_financial_statement (some "k") "AAPL" "bogus" fetch
        = (Outcome.raise "ValueError: bogus is not a valid FinancialType", []))
    ∧ (∀ (symbol : String) (page limit : Int) (fetch : Request → FetchResult),
      get_calendar_data (some "k") "not_a_type" symbol page limit fetch
        = (Outcome.ok "Error: invalid event type", []))
    ∧ (∀ (symbol : String) (limit : Int) (fetch : Request → FetchResult),
      get_ratings (some "k") symbol "not_a_type" limit fetch
        = (Outcome.ok "Error: invalid rating type", []))
    ∧ (∀ (symbol : String) (page limit : Int) (fetch : Request → FetchResult),
      get_shares_float_info (some "k") "not_a_type" symbol page limit fetch
        = (Outcome.ok "Error: invalid info type", []))
    ∧ (∀ (name : String) (page limit : Int) (fetch : Request → FetchResult),
      get_ma_data (some "k") "not_a_type" name page limit fetch
        = (Outcome.ok "Error: invalid action type", []))
    ∧ (∀ (symbol : String) (fetch : Request → FetchResult),
      get_executive_info (some "k") "not_a_type" symbol fetch
        = (Outcome.ok "Error: invalid info type", []))
    ∧ (∀ (symbol : String) (fetch : Request → FetchResult),
      get_dcf_valuation (some "k") "not_a_type" symbol fetch
        = (Outcome.ok "Error: invalid valuation type", []))
    ∧ (∀ (name from_date to_date : String) (fetch : Request → FetchResult),
      get_economic_data (some "k") "not_a_type" name from_date to_date fetch
        = (Outcome.ok "Error: invalid data type", []))
    ∧ (∀ (query : String) (fetch : Request → FetchResult),
      lookup_identifier (some "k") "not_a_type" query fetch
        = (Outcome.ok "Error: invalid identifier type", []))
    ∧ (∀ fetch : Request → FetchResult,
      get_directory_list (some "k") "not_a_type" fetch
        = (Outcome.ok "Error: invalid list type", []))
    ∧ (∀ (symbol : String) (page limit : Int) (fetch : Request → FetchResult),
      get_price_target_info (some "k") "not_a_type" symbol page limit fetch
        = (Outcome.ok "Error: invalid info type", [])) := by
  refine ⟨fun fetch => rfl, fun symbol page limit fetch => rfl,
    fun symbol limit fetch => rfl, fun symbol page limit fetch => rfl,
    fun name page limit fetch => rfl, fun symbol fetch => rfl,
    fun symbol fetch => rfl, fun name from_date to_date fetch => rfl,
    fun query fetch => rfl, fun fetch => rfl,
    fun symbol page limit fetch => rfl⟩

/-- C3: the date filter of get_historical_stock_prices keeps exactly the
rows dated on or after now minus the mapped window (1d to 10y with the
claimed day counts), for ytd on or after January 1 of the current year,
and leaves the rows untouched for max and for every unmapped period
string, which behaves exactly as max. -/
theorem historical_period_filter_spec (now jan1 : Int) (rows : List PriceRow) :
    (period_map "1d" = some 1 ∧ period_map "5d" = some 5 ∧ period_map "1mo" = some 30 ∧
     period_map "3mo" = some 90 ∧ period_map "6mo" = some 180 ∧ period_map "1y" = some 365 ∧
     period_map "2y" = some 730 ∧ period_map "5y" = some 1825 ∧ period_map "10y" = some 3650)
    ∧ (∀ (p : String) (d : Int), period_map p = some d →
        filterByStart rows (startOf now jan1 p)
          = rows.filter (fun r => decide (now - d ≤ r.date)))
    ∧ filterByStart rows (startOf now jan1 "ytd")
        = rows.filter (fun r => decide (jan1 ≤ r.date))
    ∧ (∀ p : String, period_map p = none → p ≠ "ytd" →
        filterByStart rows (startOf now jan1 p) = rows
        ∧ filterByStart rows (startOf now jan1 p)
            = filterByStart rows (startOf now jan1 "max")) := by
  refine ⟨⟨rfl, rfl, rfl, rfl, rfl, rfl, rfl, rfl, rfl⟩, ?_, ?_, ?_⟩
  · intro p d h
    have hy : p ≠ "ytd" := by rintro rfl; simp [period_map] at h
    have hm : p ≠ "max" := by rintro rfl; simp [period_map] at h
    have hs : startOf now jan1 p = some (now - d) := by
      simp [startOf, hy, hm, h]
    rw [hs]
    cases rows <;> rfl
  · have hs : startOf now jan1 "ytd" = some jan1 := rfl
    rw [hs]
    cases rows <;> rfl
  · intro p h hy
    have hs : startOf now jan1 p = none := by
      simp [startOf, hy, h]
    have hm : startOf now jan1 "max" = none := rfl
    rw [hs, hm]
    exact ⟨rfl, rfl⟩

/-- Witness for C3: a concrete two-row series filtered with period 1mo at
now = 100 keeps exactly the row dated 80 (the window start being 70). -/
theorem historical_period_filter_spec_witness :
    filterByStart
      [⟨80, Json.null, Json.null, Json.null, Json.null, Json.null⟩,
       ⟨60, Json.null, Json.null, Json.null, Json.null, Json.null⟩]
      (startOf 100 50 "1mo")
      = [⟨80, Json.null, Json.null, Json.null, Json.null, Json.null⟩] := by
  have h := (historical_period_filter_spec 100 50
      [⟨80, Json.null, Json.null, Json.null, Json.null, Json.null⟩,
       ⟨60, Json.null, Json.null, Json.null, Json.null, Json.null⟩]).2.1 "1mo" 30 rfl
  rw [h]
  rfl

/-- C4: with the FMP_API_KEY credential absent from the environment, every
one of the 26 tool operations returns the missing-credential error string
and issues no network request. -/
theorem missing_api_key_no_network :
    (∀ (ticker period interval : String) (parseDate : String → Int)
        (isoOf : Int → String) (now jan1 : Int) (fetch : Request → FetchResult),
      get_historical_stock_prices none ticker period interval parseDate isoOf now jan1 fetch
        = (Outcome.ok keyErrMsg, []))
    ∧ (∀ (ticker : String) (fetch : Request → FetchResult),
      get_stock_info none ticker fetch = (Outcome.ok keyErrMsg, []))
    ∧ (∀ (ticker : String) (fetch : Request → FetchResult),
      get_news_sentiment none ticker fetch = (Outcome.ok keyErrMsg, []))
    ∧ (∀ (ticker : String) (fetch : Request → FetchResult),
      get_stock_actions none ticker fetch = (Outcome.ok keyErrMsg, []))
    ∧ (∀ (ticker financial_type : String) (fetch : Request → FetchResult),
      get_financial_statement none ticker financial_type fetch = (Outcome.ok keyErrMsg, []))
    ∧ (∀ (event_type symbol : String) (page limit : Int) (fetch : Request → FetchResult),
      get_calendar_data none event_type symbol page limit fetch = (Outcome.ok keyErrMsg, []))
    ∧ (∀ (info_type symbol : String) (page limit : Int) (fetch : Request → FetchResult),
      get_shares_float_info none info_type symbol page limit fetch = (Outcome.ok keyErrMsg, []))
    ∧ (∀ (action_type name : String) (page limit : Int) (fetch : Request → FetchResult),
      get_ma_data none action_type name page limit fetch = (Outcome.ok keyErrMsg, []))
    ∧ (∀ (info_type symbol : String) (fetch : Request → FetchResult),
      get_executive_info none info_type symbol fetch = (Outcome.ok keyErrMsg, []))
    ∧ (∀ (valuation_type symbol : String) (fetch : Request → FetchResult),
      get_dcf_valuation none valuation_type symbol fetch = (Outcome.ok keyErrMsg, []))
    ∧ (∀ (data_type name from_date to_date : String) (fetch : Request → FetchResult),
      get_economic_data none data_type name from_date to_date fetch = (Outcome.ok keyErrMsg, []))
    ∧ (∀ (ticker : String) (fetch : Request → FetchResult),
      get_option_expiration_dates none ticker fetch = (Outcome.ok keyErrMsg, []))
    ∧ (∀ (ticker expiration_date option_type : String) (fetch : Request → FetchResult),
      get_option_chain none ticker expiration_date option_type fetch = (Outcome.ok keyErrMsg, []))
    ∧ (∀ (query : String) (limit : Int) (exchange : String) (fetch : Request → FetchResult),
      search_companies none query limit exchange fetch = (Outcome.ok keyErrMsg, []))
    ∧ (∀ fetch : Request → FetchResult,
      get_top_gainers none fetch = (Outcome.ok keyErrMsg, []))
    ∧ (∀ fetch : Request → FetchResult,
      get_top_losers none fetch = (Outcome.ok keyErrMsg, []))
    ∧ (∀ (ticker : String) (fetch : Request → FetchResult),
      get_stock_grades none ticker fetch = (Outcome.ok keyErrMsg, []))
    ∧ (∀ (ticker : String) (limit : Int) (fetch : Request → FetchResult),
      get_stock_grades_historical none ticker limit fetch = (Outcome.ok keyErrMsg, []))
    ∧ (∀ (ticker : String) (fetch : Request → FetchResult),
      get_stock_grades_summary none ticker fetch = (Outcome.ok keyErrMsg, []))
    ∧ (∀ (ticker : String) (page limit : Int) (fetch : Request → FetchResult),
      get_stock_grade_news none ticker page limit fetch = (Outcome.ok keyErrMsg, []))
    ∧ (∀ (page limit : Int) (fetch : Request → FetchResult),
      get_stock_grade_latest_news none page limit fetch = (Outcome.ok keyErrMsg, []))
    ∧ (∀ (identifier_type query : String) (fetch : Request → FetchResult),
      lookup_identifier none identifier_type query fetch = (Outcome.ok keyErrMsg, []))
    ∧ (∀ (list_type : String) (fetch : Request → FetchResult),
      get_directory_list none list_type fetch = (Outcome.ok keyErrMsg, []))
    ∧ (∀ (symbol period : String) (page limit : Int) (fetch : Request → FetchResult),
      get_analyst_estimates none symbol period page limit fetch = (Outcome.ok keyErrMsg, []))
    ∧ (∀ (symbol rating_type : String) (limit : Int) (fetch : Request → FetchResult),
      get_ratings none symbol rating_type limit fetch = (Outcome.ok keyErrMsg, []))
    ∧ (∀ (info_type symbol : String) (page limit : Int) (fetch : Request → FetchResult),
      get_price_target_info none info_type symbol page limit fetch = (Outcome.ok keyErrMsg, [])) :=
  ⟨fun _ _ _ _ _ _ _ _ => rfl, fun _ _ => rfl, fun _ _ => rfl, fun _ _ => rfl,
   fun _ _ _ => rfl, fun _ _ _ _ _ => rfl, fun _ _ _ _ _ => rfl, fun _ _ _ _ _ => rfl,
   fun _ _ _ => rfl, fun _ _ _ => rfl, fun _ _ _ _ _ => rfl, fun _ _ => rfl,
   fun _ _ _ _ => rfl, fun _ _ _ _ => rfl, fun _ => rfl, fun _ => rfl,
   fun _ _ => rfl, fun _ _ _ => rfl, fun _ _ => rfl, fun _ _ _ _ => rfl,
   fun _ _ _ => rfl, fun _ _ _ => rfl, fun _ _ => rfl, fun _ _ _ _ _ => rfl,
   fun _ _ _ _ => rfl, fun _ _ _ _ _ => rfl⟩

/-- Counterexample for C5: with the credential present and a successful
upstream, get_stock_actions issues two outbound requests in one
invocation, not exactly one as the claim states. -/
theorem stock_actions_two_requests :
    ((get_stock_actions (some "k") "AAPL"
        (fun _ => FetchResult.success (Json.obj []))).2).length = 2
    ∧ ((get_stock_actions (some "k") "AAPL"
        (fun _ => FetchResult.success (Json.obj []))).2).length ≠ 1 :=
  ⟨rfl, by decide⟩

/-- C5 amended: every tool invocation issues at most one outbound request,
except get_stock_actions, which issues at most two: exactly two when the
first GET and its reshape succeed, exactly one when the first GET fails or
its reshape raises inside the try block. No further requests are possible,
and the embedding is a pure function of the environment value and the
oracle, so no process-wide state is mutated. -/
theorem request_count_amended :
    (∀ (env : Option String) (ticker period interval : String) (parseDate : String → Int)
        (isoOf : Int → String) (now jan1 : Int) (fetch : Request → FetchResult),
      ((get_historical_stock_prices env ticker period interval parseDate isoOf now jan1 fetch).2).length ≤ 1)
    ∧ (∀ (env : Option String) (ticker : String) (fetch : Request → FetchResult),
      ((get_stock_info env ticker fetch).2).length ≤ 1)
    ∧ (∀ (env : Option String) (ticker : String) (fetch : Request → FetchResult),
      ((get_news_sentiment env ticker fetch).2).length ≤ 1)
    ∧ (∀ (env : Option String) (ticker financial_type : String) (fetch : Request → FetchResult),
      ((get_financial_statement env ticker financial_type fetch).2).length ≤ 1)
    ∧ (∀ (env : Option String) (event_type symbol : String) (page limit : Int)
        (fetch : Request → FetchResult),
      ((get_calendar_data env event_type symbol page limit fetch).2).length ≤ 1)
    ∧ (∀ (env : Option String) (info_type symbol : String) (page limit : Int)
        (fetch : Request → FetchResult),
      ((get_shares_float_info env info_type symbol page limit fetch).2).length ≤ 1)
    ∧ (∀ (env : Option String) (action_type name : String) (page limit : Int)
        (fetch : Request → FetchResult),
      ((get_ma_data env action_type name page limit fetch).2).length ≤ 1)
    ∧ (∀ (env : Option String) (info_type symbol : String) (fetch : Request → FetchResult),
      ((get_executive_info env info_type symbol fetch).2).length ≤ 1)
    ∧ (∀ (env : Option String) (valuation_type symbol : String) (fetch : Request → FetchResult),
      ((get_dcf_valuation env valuation_type symbol fetch).2).length ≤ 1)
    ∧ (∀ (env : Option String) (data_type name from_date to_date : String)
        (fetch : Request → FetchResult),
      ((get_economic_data env data_type name from_date to_date fetch).2).length ≤ 1)
    ∧ (∀ (env : Option String) (ticker : String) (fetch : Request → FetchResult),
      ((get_option_expiration_dates env ticker fetch).2).length ≤ 1)
    ∧ (∀ (env : Option String) (ticker expiration_date option_type : String)
        (fetch : Request → FetchResult),
      ((get_option_chain env ticker expiration_date option_type fetch).2).length ≤ 1)
    ∧ (∀ (env : Option String) (query : String) (limit : Int) (exchange : String)
        (fetch : Request → FetchResult),
      ((search_companies env query limit exchange fetch).2).length ≤ 1)
    ∧ (∀ (env : Option String) (fetch : Request → FetchResult),
      ((get_top_gainers env fetch).2).length ≤ 1)
    ∧ (∀ (env : Option String) (fetch : Request → FetchResult),
      ((get_top_losers env fetch).2).length ≤ 1)
    ∧ (∀ (env : Option String) (ticker : String) (fetch : Request → FetchResult),
      ((get_stock_grades env ticker fetch).2).length ≤ 1)
    ∧ (∀ (env : Option String) (ticker : String) (limit : Int) (fetch : Request → FetchResult),
      ((get_stock_grades_historical env ticker limit fetch).2).length ≤ 1)
    ∧ (∀ (env : Option String) (ticker : String) (fetch : Request → FetchResult),
      ((get_stock_grades_summary env ticker fetch).2).length ≤ 1)
    ∧ (∀ (env : Option String) (ticker : String) (page limit : Int)
        (fetch : Request → FetchResult),
      ((get_stock_grade_news env ticker page limit fetch).2).length ≤ 1)
    ∧ (∀ (env : Option String) (page limit : Int) (fetch : Request → FetchResult),
      ((get_stock_grade_latest_news env page limit fetch).2).length ≤ 1)
    ∧ (∀ (env : Option String) (identifier_type query : String) (fetch : Request → FetchResult),
      ((lookup_identifier env identifier_type query fetch).2).length ≤ 1)
    ∧ (∀ (env : Option String) (list_type : String) (fetch : Request → FetchResult),
      ((get_directory_list env list_type fetch).2).length ≤ 1)
    ∧ (∀ (env : Option String) (symbol period : String) (page limit : Int)
        (fetch : Request → FetchResult),
      ((get_analyst_estimates env symbol period page limit fetch).2).length ≤ 1)
    ∧ (∀ (env : Option String) (symbol rating_type : String) (limit : Int)
        (fetch : Request → FetchResult),
      ((get_ratings env symbol rating_type limit fetch).2).length ≤ 1)
    ∧ (∀ (env : Option String) (info_type symbol : String) (page limit : Int)
        (fetch : Request → FetchResult),
      ((get_price_target_info env info_type symbol page limit fetch).2).length ≤ 1)
    ∧ (∀ (env : Option String) (ticker : String) (fetch : Request → FetchResult),
      ((get_stock_actions env ticker fetch).2).length ≤ 2)
    ∧ (∀ (ticker : String) (fetch : Request → FetchResult) (b : Json) (divs : List Json),
      fetch (divRequest ticker "k") = FetchResult.success b →
      extractHistorical b = Except.ok divs →
      ((get_stock_actions (some "k") ticker fetch).2).length = 2)
    ∧ (∀ (ticker : String) (fetch : Request → FetchResult) (e : String),
      fetch (divRequest ticker "k") = FetchResult.failure e →
      ((get_stock_actions (some "k") ticker fetch).2).length = 1)
    ∧ (∀ (ticker : String) (fetch : Request → FetchResult) (b : Json) (m : String),
      fetch (divRequest ticker "k") = FetchResult.success b →
      extractHistorical b = Except.error m →
      ((get_stock_actions (some "k") ticker fetch).2).length = 1) := by
  refine ⟨?_, ?_, ?_, ?_, ?_, ?_, ?_, ?_, ?_, ?_, ?_, ?_, ?_, ?_, ?_, ?_, ?_, ?_,
    ?_, ?_, ?_, ?_, ?_, ?_, ?_, ?_, ?_, ?_, ?_⟩
  · intro env a b c d e f g h
    simp only [get_historical_stock_prices]
    repeat' split
    all_goals simp [runGet_snd]
  · intro env a b
    simp only [get_stock_info]
    repeat' split
    all_goals simp [runGet_snd]
  · intro env a b
    simp only [get_news_sentiment]
    repeat' split
    all_goals simp [runGet_snd]
  · intro env a b c
    simp only [get_financial_statement]
    repeat' split
    all_goals simp [runGet_snd]
  · intro env a b c d e
    simp only [get_calendar_data]
    repeat' split
    all_goals simp [runGet_snd]
  · intro env a b c d e
    simp only [get_shares_float_info]
    repeat' split
    all_goals simp [runGet_snd]
  · intro env a b c d e
    simp only [get_ma_data]
    repeat' split
    all_goals simp [runGet_snd]
  · intro env a b c
    simp only [get_executive_info]
    repeat' split
    all_goals simp [runGet_snd]
  · intro env a b c
    simp only [get_dcf_valuation]
    repeat' split
    all_goals simp [runGet_snd]
  · intro env a b c d e
    simp only [get_economic_data]
    repeat' split
    all_goals simp [runGet_snd]
  · intro env a b
    simp only [get_option_expiration_dates]
    repeat' split
    all_goals simp [runGet_snd]
  · intro env a b c d
    simp only [get_option_chain]
    repeat' split
    all_goals simp [runGet_snd]
  · intro env a b c d
    simp only [search_companies]
    repeat' split
    all_goals simp [runGet_snd]
  · intro env a
    simp only [get_top_gainers]
    repeat' split
    all_goals simp [runGet_snd]
  · intro env a
    simp only [get_top_losers]
    repeat' split
    all_goals simp [runGet_snd]
  · intro env a b
    simp only [get_stock_grades]
    repeat' split
    all_goals simp [runGet_snd]
  · intro env a b c
    simp only [get_stock_grades_historical]
    repeat' split
    all_goals simp [runGet_snd]
  · intro env a b
    simp only [get_stock_grades_summary]
    repeat' split
    all_goals simp [runGet_snd]
  · intro env a b c d
    simp only [get_stock_grade_news]
    repeat' split
    all_goals simp [runGet_snd]
  · intro env a b c
    simp only [get_stock_grade_latest_news]
    repeat' split
    all_goals simp [runGet_snd]
  · intro env a b c
    simp only [lookup_identifier]
    repeat' split
    all_goals simp [runGet_snd]
  · intro env a b
    simp only [get_directory_list]
    repeat' split
    all_goals simp [runGet_snd]
  · intro env a b c d e
    simp only [get_analyst_estimates]
    repeat' split
    all_goals simp [runGet_snd]
  · intro env a b c d
    simp only [get_ratings]
    repeat' split
    all_goals simp [runGet_snd]
  · intro env a b c d e
    simp only [get_price_target_info]
    repeat' split
    all_goals simp [runGet_snd]
  · intro env a b
    simp only [get_stock_actions]
    repeat' split
    all_goals simp [runGet_snd]
  · intro t fetch b divs hb hd
    simp [get_stock_actions, apiKeyMissing, apiKeyValue, hb, hd]
    cases hs : fetch (splitRequest t "k") with
    | success body => cases h2 : extractHistorical body <;> simp [h2]
    | failure e => simp
  · intro t fetch e hb
    simp [get_stock_actions, apiKeyMissing, apiKeyValue, hb]
  · intro t fetch b m hb hd
    simp [get_stock_actions, apiKeyMissing, apiKeyValue, hb, hd]

/-- Witness for C5 amended: with a concrete always-succeeding oracle the
two-request clause of the amended count theorem applies and evaluates to
two requests. -/
theorem request_count_amended_witness :
    ((get_stock_actions (some "k") "MSFT"
        (fun _ => FetchResult.success (Json.obj []))).2).length = 2 := by
  have h := request_count_amended.2.2.2.2.2.2.2.2.2.2.2.2.2.2.2.2.2.2.2.2.2.2.2.2.2.2.1
  exact h "MSFT" (fun _ => FetchResult.success (Json.obj [])) (Json.obj []) [] rfl rfl

/-- C6: get_calendar_data with event type dividends, earnings or splits
and an empty symbol returns the descriptive symbol-required error and
issues no request; with dividends_calendar an empty symbol is accepted and
exactly one request is issued. -/
theorem calendar_symbol_requirement :
    (∀ (page limit : Int) (fetch : Request → FetchResult),
      get_calendar_data (some "k") "dividends" "" page limit fetch
        = (Outcome.ok "Error: symbol is required for this event type", []))
    ∧ (∀ (page limit : Int) (fetch : Request → FetchResult),
      get_calendar_data (some "k") "earnings" "" page limit fetch
        = (Outcome.ok "Error: symbol is required for this event type", []))
    ∧ (∀ (page limit : Int) (fetch : Request → FetchResult),
      get_calendar_data (some "k") "splits" "" page limit fetch
        = (Outcome.ok "Error: symbol is required for this event type", []))
    ∧ (∀ (page limit : Int) (fetch : Request → FetchResult),
      ((get_calendar_data (some "k") "dividends_calendar" "" page limit fetch).2).length = 1) := by
  refine ⟨fun page limit fetch => rfl, fun page limit fetch => rfl,
    fun page limit fetch => rfl, fun page limit fetch => ?_⟩
  have hrun : get_calendar_data (some "k") "dividends_calendar" "" page limit fetch
      = runGet fetch
          { url := fmpStable ++ "/dividends-calendar", params := [("apikey", "k")] }
          (fun e => "Error: getting calendar data " ++ "dividends_calendar" ++ ": " ++ e)
          (fun data => Outcome.ok (jsonDump data)) := rfl
  rw [hrun, runGet_snd]
  rfl

/-- C10: endpoint resolution in get_calendar_data lower-cases event_type,
but the symbol-requirement and page/limit checks compare the raw string:
with the upper-case DIVIDENDS and an empty symbol the operation skips the
symbol-required error and issues one request, and with the upper-case
IPOS_CALENDAR the page and limit parameters are not attached, while the
lower-case ipos_calendar does attach them. -/
theorem calendar_case_mismatch :
    (∀ (page limit : Int) (fetch : Request → FetchResult),
      get_calendar_data (some "k") "DIVIDENDS" "" page limit fetch
        ≠ (Outcome.ok "Error: symbol is required for this event type", [])
      ∧ ((get_calendar_data (some "k") "DIVIDENDS" "" page limit fetch).2).length = 1)
    ∧ (∀ (page limit : Int) (fetch : Request → FetchResult),
      (get_calendar_data (some "k") "IPOS_CALENDAR" "" page limit fetch).2
        = [{ url := fmpStable ++ "/ipos-calendar", params := [("apikey", "k")] }]
      ∧ (get_calendar_data (some "k") "ipos_calendar" "" page limit fetch).2
        = [{ url := fmpStable ++ "/ipos-calendar",
             params := [("apikey", "k"), ("page", toString page), ("limit", toString limit)] }]) := by
  constructor
  · intro page limit fetch
    have hrun : get_calendar_data (some "k") "DIVIDENDS" "" page limit fetch
        = runGet fetch
            { url := fmpStable ++ "/dividends", params := [("apikey", "k")] }
            (fun e => "Error: getting calendar data " ++ "DIVIDENDS" ++ ": " ++ e)
            (fun data => Outcome.ok (jsonDump data)) := rfl
    have hlen : ((get_calendar_data (some "k") "DIVIDENDS" "" page limit fetch).2).length = 1 := by
      rw [hrun, runGet_snd]
      rfl
    refine ⟨?_, hlen⟩
    intro h
    rw [h] at hlen
    simp at hlen
  · intro page limit fetch
    constructor
    · have hrun : get_calendar_data (some "k") "IPOS_CALENDAR" "" page limit fetch
          = runGet fetch
              { url := fmpStable ++ "/ipos-calendar", params := [("apikey", "k")] }
              (fun e => "Error: getting calendar data " ++ "IPOS_CALENDAR" ++ ": " ++ e)
              (fun data => Outcome.ok (jsonDump data)) := rfl
      rw [hrun, runGet_snd]
    · have hrun : get_calendar_data (some "k") "ipos_calendar" "" page limit fetch
          = runGet fetch
              { url := fmpStable ++ "/ipos-calendar",
                params := [("apikey", "k"), ("page", toString page), ("limit", toString limit)] }
              (fun e => "Error: getting calendar data " ++ "ipos_calendar" ++ ": " ++ e)
              (fun data => Outcome.ok (jsonDump data)) := rfl
      rw [hrun, runGet_snd]

/-- Counterexample for C7: for the supported period 1d at now = 6, the
filter applied to a concrete unsorted three-row series keeps the first and
third rows, which is not a contiguous suffix of the input. -/
theorem filter_not_suffix_counterexample :
    ¬ (filterByStart
        [⟨10, Json.null, Json.null, Json.null, Json.null, Json.null⟩,
         ⟨0, Json.null, Json.null, Json.null, Json.null, Json.null⟩,
         ⟨10, Json.null, Json.null, Json.null, Json.null, Json.null⟩]
        (startOf 6 0 "1d")) <:+
      [⟨10, Json.null, Json.null, Json.null, Json.null, Json.null⟩,
       ⟨0, Json.null, Json.null, Json.null, Json.null, Json.null⟩,
       ⟨10, Json.null, Json.null, Json.null, Json.null, Json.null⟩] := by
  intro h
  have he : filterByStart
      [⟨10, Json.null, Json.null, Json.null, Json.null, Json.null⟩,
       ⟨0, Json.null, Json.null, Json.null, Json.null, Json.null⟩,
       ⟨10, Json.null, Json.null, Json.null, Json.null, Json.null⟩]
      (startOf 6 0 "1d")
      = [⟨10, Json.null, Json.null, Json.null, Json.null, Json.null⟩,
         ⟨10, Json.null, Json.null, Json.null, Json.null, Json.null⟩] := rfl
  rw [he] at h
  rcases h with ⟨t, ht⟩
  rcases t with _ | ⟨x, _ | ⟨y, t⟩⟩
  · simp at ht
  · simp [List.cons.injEq, PriceRow.mk.injEq] at ht
  · have hl := congrArg List.length ht
    simp at hl

/-- Helper for C7: on a series sorted by nondecreasing date, keeping the
rows dated at or after a threshold yields a contiguous suffix. -/
theorem filter_date_suffix (s : Int) :
    ∀ rows : List PriceRow, rows.Pairwise (fun a b => a.date ≤ b.date) →
      (rows.filter (fun r => decide (s ≤ r.date))) <:+ rows := by
  intro rows
  induction rows with
  | nil => intro _; simp
  | cons r rs ih =>
    intro h
    rw [List.pairwise_cons] at h
    obtain ⟨h1, h2⟩ := h
    by_cases hc : s ≤ r.date
    · have hall : ∀ x ∈ rs, (fun q => decide (s ≤ q.date)) x = true := by
        intro x hx
        simp only [decide_eq_true_eq]
        exact le_trans hc (h1 x hx)
      have hfull : (r :: rs).filter (fun q => decide (s ≤ q.date)) = r :: rs := by
        rw [List.filter_cons, if_pos (by simpa using hc), List.filter_eq_self.mpr hall]
      rw [hfull]
    · have hskip : (r :: rs).filter (fun q => decide (s ≤ q.date))
          = rs.filter (fun q => decide (s ≤ q.date)) := by
        rw [List.filter_cons]
        simp [hc]
      rw [hskip]
      exact (ih h2).trans (List.suffix_cons r rs)

/-- C7 amended: the date filter never reorders rows (its output is always
an order-preserving sublist of the input), and on an input series sorted
by nondecreasing date it yields a contiguous suffix; on unsorted input the
suffix property fails (see the counterexample). -/
theorem filter_suffix_sorted_amended (now jan1 : Int) (p : String) (rows : List PriceRow) :
    (rows.Pairwise (fun a b => a.date ≤ b.date) →
      (filterByStart rows (startOf now jan1 p)) <:+ rows)
    ∧ List.Sublist (filterByStart rows (startOf now jan1 p)) rows := by
  constructor
  · intro hs
    cases h : startOf now jan1 p with
    | none => exact List.suffix_refl rows
    | some s =>
      cases rows with
      | nil => exact List.suffix_refl _
      | cons a l => exact filter_date_suffix s (a :: l) hs
  · cases h : startOf now jan1 p with
    | none => exact List.Sublist.refl _
    | some s =>
      cases rows with
      | nil => exact List.Sublist.refl _
      | cons a l => exact List.filter_sublist _

/-- Witness for C7 amended: on a concrete sorted two-row series with
period 1d at now = 6, the filter output is a suffix of the input. -/
theorem filter_suffix_sorted_amended_witness :
    (filterByStart
      [⟨0, Json.null, Json.null, Json.null, Json.null, Json.null⟩,
       ⟨10, Json.null, Json.null, Json.null, Json.null, Json.null⟩]
      (startOf 6 0 "1d")) <:+
    [⟨0, Json.null, Json.null, Json.null, Json.null, Json.null⟩,
     ⟨10, Json.null, Json.null, Json.null, Json.null, Json.null⟩] := by
  refine (filter_suffix_sorted_amended 6 0 "1d"
    [⟨0, Json.null, Json.null, Json.null, Json.null, Json.null⟩,
     ⟨10, Json.null, Json.null, Json.null, Json.null, Json.null⟩]).1 ?_
  simp [List.pairwise_cons]

/-- Field list of a JSON object (empty for non-objects); used to state the
shape theorems for payloads whose items are known to be objects. -/
def objFields : Json → List (String × Json)
  | Json.obj fs => fs
  | _ => []

/-- Helper for C8: on a list of dict items the news loop succeeds and
produces one block per item, in item order. -/
theorem newsLoop_ok :
    ∀ items : List Json, (∀ j ∈ items, ∃ fs, j = Json.obj fs) →
      newsLoop items = Except.ok (items.map (fun j => newsBlock (objFields j))) := by
  intro items
  induction items with
  | nil => intro _; rfl
  | cons j rest ih =>
    intro h
    obtain ⟨fs, hfs⟩ := h j (List.mem_cons_self j rest)
    subst hfs
    have hr := ih (fun x hx => h x (List.mem_cons_of_mem _ hx))
    simp [newsLoop, hr, objFields]

/-- C8: for get_news_sentiment with the credential present and an upstream
list of dict items, zero items produce exactly the literal sentinel naming
the requested ticker, and N items produce the string joining exactly N
Title/Summary/URL blocks with one blank line (the two-newline separator)
between consecutive blocks. -/
theorem news_digest_shape (k ticker : String) (items : List Json)
    (fetch : Request → FetchResult)
    (hk : k ≠ "")
    (hfetch : fetch (newsRequest ticker k) = FetchResult.success (Json.arr items))
    (hobj : ∀ j ∈ items, ∃ fs, j = Json.obj fs) :
    (items = [] →
      (get_news_sentiment (some k) ticker fetch).1
        = Outcome.ok ("No news found for " ++ ticker))
    ∧ (items ≠ [] →
      (get_news_sentiment (some k) ticker fetch).1
        = Outcome.ok (String.intercalate "\n\n"
            (items.map (fun j => newsBlock (objFields j))))
      ∧ (items.map (fun j => newsBlock (objFields j))).length = items.length) := by
  have hkey : apiKeyMissing (some k) = false := by
    simp [apiKeyMissing, hk]
  have hv : apiKeyValue (some k) = k := rfl
  have hloop := newsLoop_ok items hobj
  constructor
  · rintro rfl
    simp [get_news_sentiment, hkey, hv, hfetch, pyIterate, newsLoop]
  · intro hne
    refine ⟨?_, by simp⟩
    simp [get_news_sentiment, hkey, hv, hfetch, pyIterate, hloop, hne]

/-- Witness for C8: a concrete two-item payload produces the two expected
blocks joined by one blank line. -/
theorem news_digest_shape_witness :
    (get_news_sentiment (some "k") "AAPL"
        (fun _ => FetchResult.success (Json.arr
          [Json.obj [("title", Json.str "T1"), ("text", Json.str "S1"),
                     ("url", Json.str "U1")],
           Json.obj [("title", Json.str "T2"), ("text", Json.str "S2"),
                     ("url", Json.str "U2")]]))).1
      = Outcome.ok
          "Title: T1\nSummary: S1\nURL: U1\n\nTitle: T2\nSummary: S2\nURL: U2" := by
  have h := (news_digest_shape "k" "AAPL"
      [Json.obj [("title", Json.str "T1"), ("text", Json.str "S1"),
                 ("url", Json.str "U1")],
       Json.obj [("title", Json.str "T2"), ("text", Json.str "S2"),
                 ("url", Json.str "U2")]]
      (fun _ => FetchResult.success (Json.arr
        [Json.obj [("title", Json.str "T1"), ("text", Json.str "S1"),
                   ("url", Json.str "U1")],
         Json.obj [("title", Json.str "T2"), ("text", Json.str "S2"),
                   ("url", Json.str "U2")]]))
      (by decide) rfl ?_).2 (by simp)
  · rw [h.1]
    rfl
  · intro j hj
    simp only [List.mem_cons, List.not_mem_nil, or_false] at hj
    rcases hj with rfl | rfl
    · exact ⟨_, rfl⟩
    · exact ⟨_, rfl⟩

/-- String content of the optionType field (empty when absent), used to
state the option-chain filter in the vocabulary of the claim. -/
def optionTypeFieldStr (fs : List (String × Json)) : String :=
  match fs.lookup "optionType" with
  | some (Json.str s) => s
  | _ => ""

/-- The claimed option-chain predicate: expirationDate equals the request
exactly, and optionType equals the requested side case-insensitively. -/
def optionMatches (expd otype : String) (j : Json) : Bool :=
  jsonFieldEqStr (objFields j) "expirationDate" expd
    && (pyLower (optionTypeFieldStr (objFields j)) == pyLower otype)

/-- Helper for C9: on dict items whose optionType field, when present, is
a string, the comprehension filter succeeds and keeps exactly the items
matching the claimed predicate, in order. -/
theorem optionFilterLoop_ok (expd otype : String) :
    ∀ items : List Json,
      (∀ j ∈ items, ∃ fs, j = Json.obj fs ∧
        (fs.lookup "optionType" = none ∨
          ∃ s, fs.lookup "optionType" = some (Json.str s))) →
      optionFilterLoop expd (pyLower otype) items
        = Except.ok (items.filter (optionMatches expd otype)) := by
  intro items
  induction items with
  | nil => intro _; rfl
  | cons j rest ih =>
    intro h
    obtain ⟨fs, hfs, hwf⟩ := h j (List.mem_cons_self j rest)
    subst hfs
    have hr := ih (fun x hx => h x (List.mem_cons_of_mem _ hx))
    have htl : optionTypeLowerE fs = Except.ok (pyLower (optionTypeFieldStr fs)) := by
      rcases hwf with hn | ⟨s, hs⟩
      · have h1 : optionTypeLowerE fs = Except.ok "" := by simp [optionTypeLowerE, hn]
        have h2 : optionTypeFieldStr fs = "" := by simp [optionTypeFieldStr, hn]
        rw [h1, h2]
        rfl
      · have h1 : optionTypeLowerE fs = Except.ok (pyLower s) := by
          simp [optionTypeLowerE, hs]
        have h2 : optionTypeFieldStr fs = s := by simp [optionTypeFieldStr, hs]
        rw [h1, h2]
    by_cases hc : jsonFieldEqStr fs "expirationDate" expd
    · simp [optionFilterLoop, hc, htl, hr, List.filter_cons, optionMatches, objFields]
    · simp [optionFilterLoop, hc, hr, List.filter_cons, optionMatches, objFields]

/-- C9: for get_option_chain with the credential present and an upstream
item list whose optionType fields are strings when present, the result is
the JSON dump of exactly the items whose expirationDate equals the request
by exact string match and whose optionType matches the requested side
case-insensitively; when nothing matches the result is the empty JSON
array. -/
theorem option_chain_filter_spec (k ticker expd otype : String) (items : List Json)
    (fetch : Request → FetchResult)
    (hk : k ≠ "")
    (hfetch : fetch (optionChainRequest ticker expd k)
      = FetchResult.success (Json.arr items))
    (hwf : ∀ j ∈ items, ∃ fs, j = Json.obj fs ∧
        (fs.lookup "optionType" = none ∨
          ∃ s, fs.lookup "optionType" = some (Json.str s))) :
    (get_option_chain (some k) ticker expd otype fetch).1
      = Outcome.ok (jsonDump (Json.arr (items.filter (optionMatches expd otype))))
    ∧ (items.filter (optionMatches expd otype) = [] →
      (get_option_chain (some k) ticker expd otype fetch).1 = Outcome.ok "[]") := by
  have hkey : apiKeyMissing (some k) = false := by
    simp [apiKeyMissing, hk]
  have hloop := optionFilterLoop_ok expd otype items hwf
  have h1 : (get_option_chain (some k) ticker expd otype fetch).1
      = Outcome.ok (jsonDump (Json.arr (items.filter (optionMatches expd otype)))) := by
    simp [get_option_chain, hkey, apiKeyValue, hfetch, pyIterate, hloop]
  refine ⟨h1, fun he => ?_⟩
  rw [h1, he]
  rfl

/-- Witness for C9: a concrete mixed payload filtered at a concrete
expiration and upper-case side keeps exactly the matching item. -/
theorem option_chain_filter_spec_witness :
    (get_option_chain (some "k") "AAPL" "2025-01-17" "CALLS"
        (fun _ => FetchResult.success (Json.arr
          [Json.obj [("expirationDate", Json.str "2025-01-17"),
                     ("optionType", Json.str "calls"), ("strike", Json.num 100)],
           Json.obj [("expirationDate", Json.str "2025-02-21"),
                     ("optionType", Json.str "CALLS")]]))).1
      = Outcome.ok (jsonDump (Json.arr
          [Json.obj [("expirationDate", Json.str "2025-01-17"),
                     ("optionType", Json.str "calls"), ("strike", Json.num 100)]])) := by
  have h := (option_chain_filter_spec "k" "AAPL" "2025-01-17" "CALLS"
      [Json.obj [("expirationDate", Json.str "2025-01-17"),
                 ("optionType", Json.str "calls"), ("strike", Json.num 100)],
       Json.obj [("expirationDate", Json.str "2025-02-21"),
                 ("optionType", Json.str "CALLS")]]
      (fun _ => FetchResult.success (Json.arr
        [Json.obj [("expirationDate", Json.str "2025-01-17"),
                   ("optionType", Json.str "calls"), ("strike", Json.num 100)],
         Json.obj [("expirationDate", Json.str "2025-02-21"),
                   ("optionType", Json.str "CALLS")]]))
      (by decide) rfl ?_).1
  · rw [h]
    rfl
  · intro j hj
    simp only [List.mem_cons, List.not_mem_nil, or_false] at hj
    rcases hj with rfl | rfl
    · exact ⟨_, rfl, Or.inr ⟨_, rfl⟩⟩
    · exact ⟨_, rfl, Or.inr ⟨_, rfl⟩⟩

/-- Witness for C10: the case-mismatch theorem applied to a concrete
oracle shows the upper-case DIVIDENDS call with an empty symbol issues
exactly one request. -/
theorem calendar_case_mismatch_witness :
    ((get_calendar_data (some "k") "DIVIDENDS" "" 0 100
        (fun _ => FetchResult.success Json.null)).2).length = 1 :=
  (calendar_case_mismatch.1 0 100 (fun _ => FetchResult.success Json.null)).2
